import Mathlib

/-!
Verification development for the schema-to-query-plan pipeline of the
sql_to_dashboard repository.

The Python source is shallowly embedded: the sqlglot AST nodes the parser
inspects are modelled as inductive types, dictionaries with a fixed key set
are modelled as structures, Python exceptions are modelled with `Except`,
and the external LLM collaborator is modelled as an oracle argument.
-/

namespace SqlToDashboard

/-! ## Data model (ddl_parser_mcp/schema.py) -/

/-- `RelationType` enum (schema.py): database relationship types. -/
inductive RelationType
| oneToOne
| oneToMany
| manyToMany
deriving DecidableEq

/-- The `.value` of the `RelationType` enum member. -/
def RelationType.value : RelationType → String
| .oneToOne => "1:1"
| .oneToMany => "1:N"
| .manyToMany => "N:M"

/-- The `references` pointer stored on a foreign-key column:
`{"table": "...", "column": "..."}` (the column entry may be `None`). -/
structure RefPtr where
  table : String
  column : Option String
deriving DecidableEq

/-- `ColumnInfo` (schema.py): information about a database column,
with the pydantic defaults. -/
structure ColumnInfo where
  name : String
  data_type : String
  is_primary_key : Bool := false
  is_foreign_key : Bool := false
  is_nullable : Bool := true
  default_value : Option String := none
  references : Option RefPtr := none
deriving DecidableEq

/-- The foreign-key descriptor dictionary built by
`DDLParser._parse_foreign_key` and stored in `TableInfo.foreign_keys`:
`{'columns': [...], 'referenced_table': ..., 'referenced_columns': [...]}`
(`referenced_table` may be `None`). -/
structure FKInfo where
  columns : List String
  referenced_table : Option String
  referenced_columns : List String
deriving DecidableEq

/-- An entry of `TableInfo.indexes` (a `Dict[str, Any]`; never produced by
the parser, modelled as a plain key-value list). -/
abbrev IndexEntry : Type := List (String × String)

/-- `TableInfo` (schema.py): information about a database table. -/
structure TableInfo where
  name : String
  columns : List ColumnInfo
  primary_keys : List String := []
  foreign_keys : List FKInfo := []
  indexes : List IndexEntry := []
deriving DecidableEq

/-- `Relationship` (schema.py): a relationship between tables. -/
structure Relationship where
  from_table : String
  to_table : String
  from_column : String
  to_column : String
  type : RelationType
  label : Option String := none
deriving DecidableEq

/-- `DatabaseSchema` (schema.py): complete database schema representation.
`database_type` is `Optional[str] = "generic"`. -/
structure DatabaseSchema where
  tables : List TableInfo
  relationships : List Relationship
  database_type : Option String := some "generic"
deriving DecidableEq

/-- `QuerySuggestion` (schema.py): suggested SQL query for visualization.
These are exactly the declared pydantic fields; note there is no
confidence field. -/
structure QuerySuggestion where
  query : String
  description : String
  visualization_type : String
  expected_columns : List String
  parameters : Option (List String) := none
deriving DecidableEq

/-! ## Error taxonomy (shared/errors.py)

Each exception class is a distinct constructor; in the Python hierarchy
`ValidationError`, `ParsingError` and `SecurityError` are sibling
subclasses of `MCPError` (none is a subclass of another). -/

/-- The `MCPError` exception hierarchy of shared/errors.py, flattened into
one inductive: each constructor is one of the sibling subclasses. -/
inductive MCPErr
| validationError (message : String)
| parsingError (message : String)
| securityError (message : String)
| executionError (message : String)
| generationError (message : String)
deriving DecidableEq

/-! ## sqlglot AST model (the nodes ddl_parser.py inspects)

sqlglot is an external library; the parser only reads a small, fixed part
of its AST, which is embedded here. Attribute chains that merely navigate
to a name (e.g. `create_stmt.this.this.name`) are collapsed to the
extracted `Option String`; a `None`/empty value models the falsy cases. -/

/-- An element of an expression list that the parser filters with
`isinstance(expr, exp.Column)`. -/
inductive CExpr
| col (name : String)
| otherE
deriving DecidableEq

/-- A column-level constraint node (`exp.NotNullColumnConstraint`,
`exp.PrimaryKeyColumnConstraint`, `exp.DefaultColumnConstraint`, or any
other constraint kind the parser ignores). The default constraint's
payload is the rendered `str(constraint.this)` when present. -/
inductive ConstraintE
| notNull
| primaryKeyC
| defaultC (v : Option String)
| otherC
deriving DecidableEq

/-- `exp.ColumnDef`: `ident` models `col_def.this...name` (none when
`col_def.this` is absent), `kind` models the rendered `str(col_def.kind)`
(none when absent). -/
structure ColumnDefE where
  ident : Option String
  kind : Option String
  constraints : List ConstraintE
deriving DecidableEq

/-- The `reference` argument of an `exp.ForeignKey`: `tableName` models the
referenced-table name obtained by the isinstance/attr chain (none when
unavailable), `expressions` the referenced column list. -/
structure RefExpr where
  tableName : Option String
  expressions : List CExpr
deriving DecidableEq

/-- `exp.ForeignKey`: local column expressions plus the optional
`reference`. -/
structure FKExpr where
  expressions : List CExpr
  reference : Option RefExpr
deriving DecidableEq

/-- A top-level expression of a `CREATE TABLE` body, as dispatched by the
isinstance tests in `_parse_create_table`. -/
inductive TableExpr
| columnDef (cd : ColumnDefE)
| primaryKeyE (cols : List CExpr)
| foreignKeyE (fk : FKExpr)
| otherTE
deriving DecidableEq

/-- `exp.Create`: `tableName` models the extracted
`create_stmt.this...name` (none when `create_stmt.this` is falsy). -/
structure CreateStmt where
  tableName : Option String
  expressions : List TableExpr
deriving DecidableEq

/-- A parsed top-level statement: either a `Create` node or any other
statement kind (skipped by the parser's isinstance test). -/
inductive Stmt
| create (c : CreateStmt)
| otherStmt
deriving DecidableEq

/-- Python truthiness of an optional string: `None` and `""` are falsy. -/
def pyTruthyStrOpt : Option String → Bool
| none => false
| some s => ¬ s = ""

/-- Python `str.upper()` (ASCII scope), defined character-wise so that it
evaluates by kernel reduction. -/
def pyUpper (s : String) : String := ⟨s.data.map Char.toUpper⟩

/-- Python `str.lower()` (ASCII scope), defined character-wise so that it
evaluates by kernel reduction. -/
def pyLower (s : String) : String := ⟨s.data.map Char.toLower⟩

instance {ε α : Type} [DecidableEq ε] [DecidableEq α] : DecidableEq (Except ε α) := fun x y =>
  match x, y with
  | .error a, .error b =>
    if h : a = b then .isTrue (congrArg Except.error h)
    else .isFalse (fun hc => h (Except.error.inj hc))
  | .ok a, .ok b =>
    if h : a = b then .isTrue (congrArg Except.ok h)
    else .isFalse (fun hc => h (Except.ok.inj hc))
  | .error _, .ok _ => .isFalse (fun hc => Except.noConfusion hc)
  | .ok _, .error _ => .isFalse (fun hc => Except.noConfusion hc)

/-- Collect the names of the `exp.Column` elements of an expression list
(the `isinstance(expr, exp.Column)` filter). -/
def colNames (es : List CExpr) : List String :=
  es.filterMap fun e => match e with
    | .col n => some n
    | .otherE => none

/-! ## DDL parser (ddl_parser_mcp/parser/ddl_parser.py) -/

/-- `DDLParser._map_dialect`: map dialect names to sqlglot dialect names
(`dialect_map.get(dialect.lower(), "sqlite")`). -/
def mapDialect (dialect : String) : String :=
  match pyLower dialect with
  | "sqlite" => "sqlite"
  | "postgresql" => "postgres"
  | "postgres" => "postgres"
  | "mysql" => "mysql"
  | "mariadb" => "mysql"
  | _ => "sqlite"

/-- The mutable locals of `_parse_column_def` while the constraint loop
runs: `(is_nullable, is_primary_key, default_value)`. -/
structure CDState where
  is_nullable : Bool
  is_primary_key : Bool
  default_value : Option String
deriving DecidableEq

/-- One iteration of the constraint loop in `_parse_column_def`. -/
def applyConstraint (s : CDState) : ConstraintE → CDState
| .notNull => { s with is_nullable := false }
| .primaryKeyC => { s with is_primary_key := true, is_nullable := false }
| .defaultC v =>
    match v with
    | some d => { s with default_value := some d }
    | none => s
| .otherC => s

/-- `DDLParser._parse_column_def`. -/
def parseColumnDef (cd : ColumnDefE) : Option ColumnInfo :=
  match cd.ident with
  | none => none
  | some col_name =>
    let data_type := (cd.kind.map pyUpper).getD "TEXT"
    let st := cd.constraints.foldl applyConstraint
      { is_nullable := true, is_primary_key := false, default_value := none }
    some { name := col_name
           data_type := data_type
           is_primary_key := st.is_primary_key
           is_nullable := st.is_nullable
           default_value := st.default_value }

/-- `DDLParser._parse_foreign_key`: returns the descriptor only when the
referenced table name is truthy. -/
def parseForeignKey (fk : FKExpr) : Option FKInfo :=
  let cols := colNames fk.expressions
  let rt : Option String := match fk.reference with
    | none => none
    | some r => r.tableName
  let rcols : List String := match fk.reference with
    | none => []
    | some r => colNames r.expressions
  if pyTruthyStrOpt rt then some ⟨cols, rt, rcols⟩ else none

/-- The mutable locals of `_parse_create_table` while the expression loop
runs. -/
structure PCTState where
  columns : List ColumnInfo
  primary_keys : List String
  foreign_keys : List FKInfo
deriving DecidableEq

/-- One iteration of the expression loop in `_parse_create_table`.
When a foreign-key descriptor is recorded, the columns parsed so far that
it lists are marked `is_foreign_key` and given a `references` pointer
(the preceding truthiness check guarantees `referenced_table` is a
nonempty string at that point). -/
def parseCreateStep (s : PCTState) : TableExpr → PCTState
| .columnDef cd =>
    match parseColumnDef cd with
    | some ci =>
        { s with
          columns := s.columns ++ [ci]
          primary_keys :=
            if ci.is_primary_key then s.primary_keys ++ [ci.name]
            else s.primary_keys }
    | none => s
| .primaryKeyE cols => { s with primary_keys := s.primary_keys ++ colNames cols }
| .foreignKeyE fk =>
    match parseForeignKey fk with
    | some fki =>
        { s with
          foreign_keys := s.foreign_keys ++ [fki]
          columns := s.columns.map fun col =>
            if fki.columns.contains col.name then
              { col with
                is_foreign_key := true
                references := some ⟨fki.referenced_table.getD "",
                                    fki.referenced_columns.head?⟩ }
            else col }
    | none => s
| .otherTE => s

/-- `DDLParser._parse_create_table`. -/
def parseCreateTable (c : CreateStmt) : Option TableInfo :=
  if pyTruthyStrOpt c.tableName then
    let st := c.expressions.foldl parseCreateStep
      { columns := [], primary_keys := [], foreign_keys := [] }
    some { name := c.tableName.getD ""
           columns := st.columns
           primary_keys := st.primary_keys
           foreign_keys := st.foreign_keys }
  else none

/-- `DDLParser._extract_relationship`. -/
def extractRelationship (table_name : String) (fki : FKInfo) : Option Relationship :=
  if pyTruthyStrOpt fki.referenced_table then
    some { from_table := table_name
           to_table := fki.referenced_table.getD ""
           from_column := fki.columns.head?.getD "id"
           to_column := fki.referenced_columns.head?.getD "id"
           type := .oneToMany }
  else none

/-- The accumulating locals of `DDLParser.parse`. -/
structure ParseState where
  tables : List TableInfo
  relationships : List Relationship
deriving DecidableEq

/-- One iteration of the statement loop in `DDLParser.parse`. -/
def parseStmtStep (s : ParseState) : Stmt → ParseState
| .create c =>
    match parseCreateTable c with
    | some ti =>
        { tables := s.tables ++ [ti]
          relationships :=
            s.relationships ++ ti.foreign_keys.filterMap (extractRelationship ti.name) }
    | none => s
| .otherStmt => s

/-- The statement loop of `DDLParser.parse` applied to sqlglot's output,
assembling the `DatabaseSchema` (dialect already mapped). -/
def assembleSchema (dialect : String) (stmts : List Stmt) : DatabaseSchema :=
  let s := stmts.foldl parseStmtStep { tables := [], relationships := [] }
  { tables := s.tables
    relationships := s.relationships
    database_type := some dialect }

/-- `DDLParser.parse`: `sqlglot.parse` is external, so its outcome is the
argument `r` (an exception, or the statement list); any exception in the
`try` block is converted to `ParsingError`, and a successful statement
list is assembled into a schema — with no emptiness check. -/
def parseDDL (dialect : String) (r : Except String (List Stmt)) :
    Except MCPErr DatabaseSchema :=
  match r with
  | .error e => .error (.parsingError ("Failed to parse DDL: " ++ e))
  | .ok stmts => .ok (assembleSchema (mapDialect dialect) stmts)

/-! ## String helpers (Python `re` semantics, ASCII scope)

The safety pre-check uses `re.search` with fixed patterns built from word
literals, `\b`, `\s+` and one `.*`. Each pattern is embedded as an
executable search with the regex's existential semantics. `\w` and `\s`
are modelled for the ASCII range. -/

/-- Python regex `\w` (word character), ASCII range. -/
def isWordChar (c : Char) : Bool := c.isAlphanum || c = '_'

/-- Python regex `\s` (whitespace character). -/
def isPySpace (c : Char) : Bool :=
  c = ' ' || c = '\t' || c = '\n' || c = '\r' || c = '\x0b' || c = '\x0c'

/-- `w` occurs in `cs` starting exactly at index `i`. -/
def prefixAt (w : List Char) (cs : List Char) (i : Nat) : Bool :=
  decide ((cs.drop i).take w.length = w)

/-- `\b` holds just before index `i` (start of string or non-word char). -/
def bLeft (cs : List Char) (i : Nat) : Bool :=
  i = 0 ||
    match cs[i-1]? with
    | some c => ¬ isWordChar c
    | none => true

/-- `\b` holds just before index `j` reading rightwards (end of string or
non-word char at `j`). -/
def bRight (cs : List Char) (j : Nat) : Bool :=
  match cs[j]? with
  | some c => ¬ isWordChar c
  | none => true

/-- `\bW\b` matches at index `i`. -/
def wordAt (w : List Char) (cs : List Char) (i : Nat) : Bool :=
  bLeft cs i && prefixAt w cs i && bRight cs (i + w.length)

/-- `re.search` for `\bW\b`. -/
def searchWord (w : String) (cs : List Char) : Bool :=
  (List.range (cs.length + 1)).any (wordAt w.data cs)

/-- `\bW1\s+W2\b` matches at index `i`. Because `W2` starts with a
non-space character, `\s+` must consume exactly the maximal space run
following `W1`, so only that position is tried. -/
def wordPairAt (w1 w2 : List Char) (cs : List Char) (i : Nat) : Bool :=
  bLeft cs i && prefixAt w1 cs i &&
    (let p := i + w1.length
     let k := ((cs.drop p).takeWhile isPySpace).length
     decide (1 ≤ k) && prefixAt w2 cs (p + k) && bRight cs (p + k + w2.length))

/-- `re.search` for `\bW1\s+W2\b`. -/
def searchWordPair (w1 w2 : String) (cs : List Char) : Bool :=
  (List.range (cs.length + 1)).any (wordPairAt w1.data w2.data cs)

/-- All characters of `cs` in index range `[i, j)` satisfy `p`. -/
def allRange (p : Char → Bool) (cs : List Char) (i j : Nat) : Bool :=
  ((cs.drop i).take (j - i)).all p

/-- `\bUPDATE\s+.*\s+SET\b` matches at index `i` (`.` excludes the
newline): some positive space run, then a newline-free run, then some
positive space run, then `SET` with a right word boundary. -/
def updateSetAt (cs : List Char) (i : Nat) : Bool :=
  bLeft cs i && prefixAt "UPDATE".data cs i &&
    (let p := i + 6
     let n := cs.length
     (List.range (n + 1)).any fun a =>
       decide (p < a) && decide (a ≤ n) && allRange isPySpace cs p a &&
         (List.range (n + 1)).any fun b =>
           decide (a ≤ b) && decide (b ≤ n) &&
             allRange (fun c => ¬ c = '\n') cs a b &&
             (List.range (n + 1)).any fun c2 =>
               decide (b < c2) && decide (c2 ≤ n) && allRange isPySpace cs b c2 &&
                 prefixAt "SET".data cs c2 && bRight cs (c2 + 3))

/-- `re.search` for `\bUPDATE\s+.*\s+SET\b`. -/
def searchUpdateSet (cs : List Char) : Bool :=
  (List.range (cs.length + 1)).any (updateSetAt cs)

/-- `pat` occurs somewhere in `s` (substring containment). -/
def containsSub (s pat : String) : Bool :=
  (List.range (s.data.length + 1)).any (prefixAt pat.data s.data)

/-- Number of indices of `s` at which `pat` occurs. -/
def countSub (s pat : String) : Nat :=
  ((List.range (s.data.length + 1)).filter (prefixAt pat.data s.data)).length

/-! ## Input validators (shared/validators.py) -/

/-- `validate_input_size`: rejects input above `max_size` characters with
a `ValidationError`. -/
def validate_input_size (input_str : String) (max_size : Nat) : Except MCPErr Unit :=
  if input_str.length > max_size then
    .error (.validationError
      ("Input too large: " ++ toString input_str.length ++
        " characters (max: " ++ toString max_size ++ ")"))
  else .ok ()

/-- The `dangerous_patterns` scan of `validate_ddl_safety`, applied to the
upper-cased DDL, pattern order preserved. -/
def containsDangerous (ddl : String) : Bool :=
  let cs := (pyUpper ddl).data
  searchWordPair "DROP" "DATABASE" cs ||
  searchWord "TRUNCATE" cs ||
  searchWordPair "DELETE" "FROM" cs ||
  searchUpdateSet cs ||
  searchWordPair "INSERT" "INTO" cs ||
  searchWord "EXEC" cs ||
  searchWord "EXECUTE" cs ||
  searchWord "GRANT" cs ||
  searchWord "REVOKE" cs

/-- `validate_ddl_safety`: raises `SecurityError` when any dangerous
pattern occurs in the DDL. -/
def validate_ddl_safety (ddl : String) : Except MCPErr Unit :=
  if containsDangerous ddl then
    .error (.securityError "DDL contains potentially dangerous operations")
  else .ok ()

/-- The front of the request pipeline for DDL input
(`DDLParserMCPServer.handle_request` + `_handle_ddl_input`): size
validation, then the safety pre-check, then the parse. The sqlglot
outcome for this input is the argument `sg`. -/
def ddlPipeline (ddl : String) (dialect : String)
    (sg : Except String (List Stmt)) : Except MCPErr DatabaseSchema := do
  let _ ← validate_input_size ddl 100000
  let _ ← validate_ddl_safety ddl
  parseDDL dialect sg

/-- Is the outcome a raised `ValidationError`? -/
def isValidationError {α : Type} : Except MCPErr α → Bool
| .error (.validationError _) => true
| _ => false

/-! ## Schema serializer (ddl_parser_mcp/server.py `_schema_to_dict`)

The nested plain mapping has a fixed key set at every level, so each
level is embedded as a structure whose fields are exactly the dict keys. -/

/-- The column dictionary of `_schema_to_dict`:
keys name/type/nullable/primary_key/foreign_key/unique/default. -/
structure PlainColumn where
  name : String
  type : String
  nullable : Bool
  primary_key : Bool
  foreign_key : Bool
  unique : Bool
  default : Option String
deriving DecidableEq

/-- The table dictionary of `_schema_to_dict`. -/
structure PlainTable where
  name : String
  columns : List PlainColumn
  primary_keys : List String
  foreign_keys : List FKInfo
  indexes : List IndexEntry
deriving DecidableEq

/-- The relationship dictionary of `_schema_to_dict`. -/
structure PlainRel where
  from_table : String
  from_column : String
  to_table : String
  to_column : String
  relationship_type : String
deriving DecidableEq

/-- The top-level dictionary of `_schema_to_dict`:
keys tables/relationships. -/
structure PlainSchema where
  tables : List PlainTable
  relationships : List PlainRel
deriving DecidableEq

/-- The per-column serialization of `_schema_to_dict`. `unique` is
`getattr(col, 'is_unique', False)` and `ColumnInfo` declares no
`is_unique` field, so it is always `False`; `references` is not
serialized. -/
def columnToDict (col : ColumnInfo) : PlainColumn :=
  { name := col.name
    type := col.data_type
    nullable := col.is_nullable
    primary_key := col.is_primary_key
    foreign_key := col.is_foreign_key
    unique := false
    default := col.default_value }

/-- The per-table serialization of `_schema_to_dict`. -/
def tableToDict (table : TableInfo) : PlainTable :=
  { name := table.name
    columns := table.columns.map columnToDict
    primary_keys := table.primary_keys
    foreign_keys := table.foreign_keys
    indexes := table.indexes }

/-- The per-relationship serialization of `_schema_to_dict`; `label` is
not serialized. -/
def relToDict (rel : Relationship) : PlainRel :=
  { from_table := rel.from_table
    from_column := rel.from_column
    to_table := rel.to_table
    to_column := rel.to_column
    relationship_type := rel.type.value }

/-- `DDLParserMCPServer._schema_to_dict` (the `to_plain` direction);
note `database_type` is not serialized. -/
def schemaToDict (schema : DatabaseSchema) : PlainSchema :=
  { tables := schema.tables.map tableToDict
    relationships := schema.relationships.map relToDict }

/-- Inverse of `RelationType.value` on the enum's values, defaulting to
one-to-many on unrecognized text. -/
def parseRelTypeValue (s : String) : RelationType :=
  match s with
  | "1:1" => .oneToOne
  | "1:N" => .oneToMany
  | "N:M" => .manyToMany
  | _ => .oneToMany

/-- Modelled from the spec: the per-column piece of
`from_plain(mapping) -> Schema` (§4.4); the mapping has no `references`
key, so that field takes its data-model default. -/
def fromPlainColumn (c : PlainColumn) : ColumnInfo :=
  { name := c.name
    data_type := c.type
    is_primary_key := c.primary_key
    is_foreign_key := c.foreign_key
    is_nullable := c.nullable
    default_value := c.default
    references := none }

/-- Modelled from the spec: the per-table piece of `from_plain` (§4.4). -/
def fromPlainTable (t : PlainTable) : TableInfo :=
  { name := t.name
    columns := t.columns.map fromPlainColumn
    primary_keys := t.primary_keys
    foreign_keys := t.foreign_keys
    indexes := t.indexes }

/-- Modelled from the spec: the per-relationship piece of `from_plain`
(§4.4); the mapping has no `label` key, so that field takes its
data-model default. -/
def fromPlainRel (r : PlainRel) : Relationship :=
  { from_table := r.from_table
    to_table := r.to_table
    from_column := r.from_column
    to_column := r.to_column
    type := parseRelTypeValue r.relationship_type
    label := none }

/-- Modelled from the spec: `from_plain(mapping) -> Schema` (§4.4). The
repository contains only the forward direction (`_schema_to_dict`); this
reconstruction reads back every key that mapping emits and leaves the
fields absent from the mapping (`Column.references`, `Relationship.label`,
the schema's dialect tag) at the data-model defaults. -/
def fromPlain (p : PlainSchema) : DatabaseSchema :=
  { tables := p.tables.map fromPlainTable
    relationships := p.relationships.map fromPlainRel }

/-! ## LLM planner (llm/sql_intelligence.py)

The Ollama collaborator is external; every value it returns is an oracle
argument. The planner consumes the plain schema dictionary produced by
`_schema_to_dict`. -/

/-- `QueryIntent` enum (llm/ollama_connector.py). -/
inductive QueryIntent
| overview
| aggregation
| distribution
| relationship
| time_series
| comparison
| ranking
| detail
deriving DecidableEq

/-- The dictionary returned by the LLM for `generate_sql_query`; a key the
LLM omitted is `none`/`[]` (`result.get` defaults). -/
structure SqlGenResult where
  error : Option String := none
  query : Option String := none
  description : Option String := none
  intent_type : Option String := none
  visualization_hint : Option String := none
  tables_used : List String := []
  expected_columns : List String := []
deriving DecidableEq

/-- The fields of the LLM's `analyze_schema` dictionary that
`_generate_master_query` reads. -/
structure Analysis where
  business_domain : Option String := none
  key_entities : List String := []
deriving DecidableEq

/-- The metadata dictionary `_generate_master_query` attaches (fixed key
set). -/
structure PlanMetadata where
  type : String
  purpose : String
  processing : String
  tables_included : Nat
  relationships_used : Nat
  visualization_intents : List String
  note : String
deriving DecidableEq

/-- `QueryPlan` dataclass (llm/sql_intelligence.py). Confidence floats
are exact decimals, modelled in `ℚ`. -/
structure QueryPlan where
  query : String
  description : String
  intent : QueryIntent
  visualization_type : String
  confidence : ℚ
  explanation : String
  tables_used : List String
  expected_columns : List String
  result_key : Option String := none
  metadata : Option PlanMetadata := none
deriving DecidableEq

/-- `SQLIntelligenceAgent._map_intent_type`. -/
def mapIntentType (intent_str : String) : QueryIntent :=
  match pyLower intent_str with
  | "overview" => .overview
  | "aggregation" => .aggregation
  | "distribution" => .distribution
  | "relationship" => .relationship
  | "time_series" => .time_series
  | "comparison" => .comparison
  | "ranking" => .ranking
  | "detail" => .detail
  | _ => .overview

/-- `SQLIntelligenceAgent._create_fallback_query`: with no tables, a
placeholder `SELECT 1;` plan at confidence 0.1; otherwise a 10-row sample
of the first table at confidence 0.3. The `intent` argument is unused by
the function body. -/
def createFallbackQuery (intent : String) (schema : PlainSchema) : QueryPlan :=
  match schema.tables with
  | [] =>
      { query := "SELECT 1;"
        description := "Fallback query"
        intent := .overview
        visualization_type := "table"
        confidence := (0.1 : ℚ)
        explanation := "Could not generate query"
        tables_used := []
        expected_columns := [] }
  | table :: _ =>
      { query := "SELECT * FROM " ++ table.name ++ " LIMIT 10;"
        description := "Sample data from " ++ table.name
        intent := .overview
        visualization_type := "table"
        confidence := (0.3 : ℚ)
        explanation := "Shows first 10 rows from " ++ table.name
        tables_used := [table.name]
        expected_columns := table.columns.map (fun c => c.name) }

/-- `SQLIntelligenceAgent.generate_query_from_intent`: `r` is the oracle
outcome of `llm.generate_sql_query`, `explain` of `llm.explain_query`.
An `"error"` key falls back; otherwise confidence is 0.8 when a
`"query"` key is present and 0.3 otherwise. -/
def generateQueryFromIntent (user_intent : String) (schema : PlainSchema)
    (r : SqlGenResult) (explain : String) : QueryPlan :=
  if r.error.isSome then createFallbackQuery user_intent schema
  else
    { query := r.query.getD ""
      description := r.description.getD user_intent
      intent := mapIntentType (r.intent_type.getD "overview")
      visualization_type := r.visualization_hint.getD "table"
      confidence := if r.query.isSome then (0.8 : ℚ) else (0.3 : ℚ)
      explanation := explain
      tables_used := r.tables_used
      expected_columns := r.expected_columns }

/-- Python truthiness of an optional list (`None` and `[]` are falsy). -/
def pyTruthyListOpt {α : Type} : Option (List α) → Bool
| none => false
| some [] => false
| some (_ :: _) => true

/-- The multi-line intent f-string `_generate_master_query` builds for the
LLM (8-space indentation and surrounding blank lines as in the source). -/
def masterIntentText (tables : List PlainTable) (relationships : List PlainRel)
    (analysis : Analysis) (visualization_intents : Option (List String)) : String :=
  "\n        Generate a single comprehensive SQL query that:\n" ++
  "        1. JOINs all related tables based on foreign key relationships\n" ++
  "        2. Returns ALL columns from ALL tables (using table aliases to avoid conflicts)\n" ++
  "        3. Includes all date/time columns for time-series analysis\n" ++
  "        4. Includes all categorical columns for grouping/filtering\n" ++
  "        5. Includes all numeric columns for aggregations\n" ++
  "        6. Does NOT perform any aggregations (D3.js will handle that)\n" ++
  "        7. Returns raw, denormalized data that D3 can transform as needed\n" ++
  "        8. Limits results to a reasonable amount (e.g. 10000 rows) for performance\n" ++
  "        \n" ++
  "        The dashboard will use D3.js to:\n" ++
  "        - Group data dynamically\n" ++
  "        - Calculate aggregations on the fly\n" ++
  "        - Filter based on user interactions\n" ++
  "        - Create multiple visualizations from this single dataset\n" ++
  "        \n" ++
  "        Schema has " ++ toString tables.length ++ " tables with " ++
    toString relationships.length ++ " relationships.\n" ++
  "        Business domain: " ++ (analysis.business_domain.getD "general") ++ "\n" ++
  "        Key entities: " ++ String.intercalate ", " analysis.key_entities ++ "\n" ++
  "        " ++
  (if pyTruthyListOpt visualization_intents then
    "\nVisualization requirements: " ++
      String.intercalate ", " (visualization_intents.getD [])
   else "")

/-- `SQLIntelligenceAgent._generate_master_query`: with no tables, the
fallback placeholder is returned as-is; otherwise the plan comes from the
LLM (or its fallback) and is re-labelled as the master query. -/
def generateMasterQuery (schema : PlainSchema) (analysis : Analysis)
    (visualization_intents : Option (List String))
    (r : SqlGenResult) (explain : String) : QueryPlan :=
  match schema.tables with
  | [] => createFallbackQuery "No tables found" schema
  | _ :: _ =>
    let intent := masterIntentText schema.tables schema.relationships
      analysis visualization_intents
    let qp := generateQueryFromIntent intent schema r explain
    { qp with
      description := "Comprehensive dataset for D3.js dashboard (all tables joined)"
      visualization_type := "d3-multi"
      metadata := some
        { type := "master_query"
          purpose := "D3.js dashboard data source"
          processing := "client-side"
          tables_included := schema.tables.length
          relationships_used := schema.relationships.length
          visualization_intents :=
            if pyTruthyListOpt visualization_intents then
              visualization_intents.getD []
            else ["overview", "distribution", "time_series"]
          note := "D3.js will handle all aggregations and transformations" }
      result_key := some "master_dataset" }

/-- `SQLIntelligenceAgent.suggest_queries_for_schema`: a one-element list
holding the master query (`analysis` is the oracle outcome of
`analyze_business_context`). -/
def suggestQueriesForSchema (schema : PlainSchema)
    (visualization_intents : Option (List String))
    (analysis : Analysis) (r : SqlGenResult) (explain : String) : List QueryPlan :=
  [generateMasterQuery schema analysis visualization_intents r explain]

/-- `LLMAgent._generate_fallback_query` (llm.py): placeholder for no
tables, plain select for one table, first-two-tables cross join
otherwise. -/
def llmFallbackQuery (tables : List String) : String :=
  match tables with
  | [] => "SELECT 1 as test;"
  | [t0] => "SELECT * FROM " ++ t0 ++ " LIMIT 10000;"
  | t0 :: t1 :: _ =>
      "SELECT t1.*, t2.*\nFROM " ++ t0 ++ " t1\nLEFT JOIN " ++ t1 ++
        " t2 ON 1=1\nLIMIT 10000;"

/-! ## Rule-based SQL generator (backup ddl_parser_mcp/generator/sql_generator.py) -/

/-- `SQLGenerator.__init__`: `self.dialect = schema.database_type or "sqlite"`. -/
def sqlgenDialect (schema : DatabaseSchema) : String :=
  match schema.database_type with
  | some s => if s = "" then "sqlite" else s
  | none => "sqlite"

/-- `SQLGenerator._quote_identifier`. -/
def quoteIdentifier (dialect : String) (identifier : String) : String :=
  if dialect = "postgres" || dialect = "postgresql" then
    "\"" ++ identifier ++ "\""
  else if dialect = "mysql" then "`" ++ identifier ++ "`"
  else "\"" ++ identifier ++ "\""

/-- `SQLGenerator._is_categorical_type`. -/
def isCategoricalType (data_type : String) : Bool :=
  ["VARCHAR", "CHAR", "TEXT", "STRING", "ENUM", "NVARCHAR"].any
    (fun cat => containsSub (pyUpper data_type) cat)

/-- `SQLGenerator._is_numeric_type`. -/
def isNumericType (data_type : String) : Bool :=
  ["INT", "DECIMAL", "FLOAT", "DOUBLE", "NUMERIC", "REAL", "NUMBER"].any
    (fun num => containsSub (pyUpper data_type) num)

/-- `SQLGenerator._is_date_type`. -/
def isDateType (data_type : String) : Bool :=
  ["DATE", "TIME", "DATETIME", "TIMESTAMP"].any
    (fun dt => containsSub (pyUpper data_type) dt)

/-- `SQLGenerator._find_table` (case-insensitive lookup). -/
def findTable (schema : DatabaseSchema) (table_name : String) : Option TableInfo :=
  schema.tables.find? (fun t => pyLower t.name = pyLower table_name)

/-- `SQLGenerator._generate_overview_queries`. -/
def generateOverviewQueries (schema : DatabaseSchema) : List QuerySuggestion :=
  let d := sqlgenDialect schema
  schema.tables.flatMap fun table =>
    [ { query := "SELECT * FROM " ++ quoteIdentifier d table.name ++ " LIMIT 100"
        description := "Sample data from " ++ table.name ++ " table"
        visualization_type := "table"
        expected_columns := table.columns.map (fun c => c.name) },
      { query := "SELECT COUNT(*) as row_count FROM " ++ quoteIdentifier d table.name
        description := "Total number of records in " ++ table.name
        visualization_type := "table"
        expected_columns := ["row_count"] } ]

/-- `SQLGenerator._generate_distribution_queries`. -/
def generateDistributionQueries (schema : DatabaseSchema) : List QuerySuggestion :=
  let d := sqlgenDialect schema
  schema.tables.flatMap fun table =>
    let categorical_cols := table.columns.filter
      (fun col => isCategoricalType col.data_type && ¬ col.is_primary_key)
    let numeric_cols := table.columns.filter
      (fun col => isNumericType col.data_type && ¬ col.is_primary_key)
    (categorical_cols.take 3).map (fun col =>
      { query := "SELECT " ++ quoteIdentifier d col.name ++ " as category, \n" ++
          "       COUNT(*) as count\nFROM " ++ quoteIdentifier d table.name ++
          "\nGROUP BY " ++ quoteIdentifier d col.name ++
          "\nORDER BY count DESC\nLIMIT 20"
        description := "Distribution of " ++ col.name ++ " in " ++ table.name
        visualization_type := "bar"
        expected_columns := ["category", "count"] }) ++
    (numeric_cols.take 2).map (fun col =>
      { query := "SELECT \n    CASE \n        WHEN " ++ quoteIdentifier d col.name ++
          " IS NULL THEN \x27NULL\x27\n        ELSE CAST((" ++
          quoteIdentifier d col.name ++ " / 10) * 10 AS VARCHAR(50))\n    END as range,\n" ++
          "    COUNT(*) as count\nFROM " ++ quoteIdentifier d table.name ++
          "\nGROUP BY range\nORDER BY range"
        description := "Distribution of " ++ col.name ++ " values in " ++ table.name
        visualization_type := "bar"
        expected_columns := ["range", "count"] })

/-- `SQLGenerator._generate_relationship_queries`. -/
def generateRelationshipQueries (schema : DatabaseSchema) : List QuerySuggestion :=
  let d := sqlgenDialect schema
  schema.relationships.flatMap fun rel =>
    match findTable schema rel.from_table, findTable schema rel.to_table with
    | some _, some to_table =>
      let join_query :=
        "SELECT t1.*, t2.*\nFROM " ++ quoteIdentifier d rel.from_table ++
          " t1\nJOIN " ++ quoteIdentifier d rel.to_table ++ " t2\n    ON t1." ++
          quoteIdentifier d rel.from_column ++ " = t2." ++
          quoteIdentifier d rel.to_column ++ "\nLIMIT 100"
      let base : List QuerySuggestion :=
        [ { query := join_query
            description := "Join data between " ++ rel.from_table ++ " and " ++ rel.to_table
            visualization_type := "table"
            expected_columns := ["*"] } ]
      let parent_categorical := (to_table.columns.find?
        (fun col => isCategoricalType col.data_type && ¬ col.is_primary_key)).map
          (fun col => col.name)
      match parent_categorical with
      | some pc =>
        base ++
          [ { query := "SELECT t2." ++ quoteIdentifier d pc ++ " as category,\n" ++
                "       COUNT(t1." ++ quoteIdentifier d rel.from_column ++
                ") as count\nFROM " ++ quoteIdentifier d rel.from_table ++
                " t1\nJOIN " ++ quoteIdentifier d rel.to_table ++ " t2\n    ON t1." ++
                quoteIdentifier d rel.from_column ++ " = t2." ++
                quoteIdentifier d rel.to_column ++ "\nGROUP BY t2." ++
                quoteIdentifier d pc ++ "\nORDER BY count DESC"
              description := "Count of " ++ rel.from_table ++ " by " ++ pc
              visualization_type := "bar"
              expected_columns := ["category", "count"] } ]
      | none => base
    | _, _ => []

/-- `SQLGenerator._generate_time_series_queries`. All three dialect
branches build the same `DATE(...)` expression. -/
def generateTimeSeriesQueries (schema : DatabaseSchema) : List QuerySuggestion :=
  let d := sqlgenDialect schema
  schema.tables.flatMap fun table =>
    let date_cols := table.columns.filter (fun col => isDateType col.data_type)
    match date_cols with
    | [] => []
    | date_col :: _ =>
      let date_format := "DATE(" ++ quoteIdentifier d date_col.name ++ ")"
      let numeric_cols := table.columns.filter
        (fun col => isNumericType col.data_type && ¬ col.is_primary_key)
      [ { query := "SELECT " ++ date_format ++ " as date,\n       COUNT(*) as count\nFROM " ++
            quoteIdentifier d table.name ++ "\nWHERE " ++
            quoteIdentifier d date_col.name ++ " IS NOT NULL\nGROUP BY date\nORDER BY date"
          description := "Daily counts in " ++ table.name ++ " over time"
          visualization_type := "line"
          expected_columns := ["date", "count"] } ] ++
      (numeric_cols.take 2).map (fun num_col =>
        { query := "SELECT " ++ date_format ++ " as date,\n       AVG(" ++
            quoteIdentifier d num_col.name ++ ") as avg_value,\n       MIN(" ++
            quoteIdentifier d num_col.name ++ ") as min_value,\n       MAX(" ++
            quoteIdentifier d num_col.name ++ ") as max_value\nFROM " ++
            quoteIdentifier d table.name ++ "\nWHERE " ++
            quoteIdentifier d date_col.name ++ " IS NOT NULL\n    AND " ++
            quoteIdentifier d num_col.name ++ " IS NOT NULL\nGROUP BY date\nORDER BY date"
          description := "Trend of " ++ num_col.name ++ " over time in " ++ table.name
          visualization_type := "line"
          expected_columns := ["date", "avg_value", "min_value", "max_value"] })

/-- `SQLGenerator._generate_aggregation_queries`. The join separator in
the source is the two-character text backslash-n (an escaped backslash
inside the f-string expression), kept verbatim here. -/
def generateAggregationQueries (schema : DatabaseSchema) : List QuerySuggestion :=
  let d := sqlgenDialect schema
  schema.tables.flatMap fun table =>
    let numeric_cols := table.columns.filter
      (fun col => isNumericType col.data_type && ¬ col.is_primary_key)
    match numeric_cols with
    | [] => []
    | _ :: _ =>
      let select_parts := (numeric_cols.take 5).flatMap (fun col =>
        [ "AVG(" ++ quoteIdentifier d col.name ++ ") as avg_" ++ col.name,
          "MIN(" ++ quoteIdentifier d col.name ++ ") as min_" ++ col.name,
          "MAX(" ++ quoteIdentifier d col.name ++ ") as max_" ++ col.name ])
      match select_parts with
      | [] => []
      | _ :: _ =>
        [ { query := "SELECT " ++ String.intercalate ",\\n       " select_parts ++
              "\nFROM " ++ quoteIdentifier d table.name
            description := "Summary statistics for " ++ table.name
            visualization_type := "table"
            expected_columns := select_parts.map
              (fun part => ((part.splitOn " as ").get? 1).getD "") } ]

/-- `SQLGenerator.generate_suggestions`: a falsy intent list selects the
default intents; each requested intent appends its generator's output. -/
def generateSuggestions (schema : DatabaseSchema)
    (visualization_intents : Option (List String)) : List QuerySuggestion :=
  let intents :=
    if pyTruthyListOpt visualization_intents then visualization_intents.getD []
    else ["overview", "distributions", "relationships", "time_series"]
  intents.flatMap fun intent =>
    if intent = "overview" then generateOverviewQueries schema
    else if intent = "distributions" then generateDistributionQueries schema
    else if intent = "relationships" then generateRelationshipQueries schema
    else if intent = "time_series" then generateTimeSeriesQueries schema
    else if intent = "aggregations" then generateAggregationQueries schema
    else []

/-- The key set of a serialized `QuerySuggestion`: pydantic dumps exactly
the declared fields of the model (schema.py lines 58–64), in declaration
order; keyword arguments outside this set are ignored by the default
model config. -/
def querySuggestionKeys : List String :=
  ["query", "description", "visualization_type", "expected_columns", "parameters"]

/-! ## Helper characterizations of the parser -/

/-- The tables extracted by the statement loop of `DDLParser.parse`. -/
def parsedTables (stmts : List Stmt) : List TableInfo :=
  stmts.filterMap fun st => match st with
    | .create c => parseCreateTable c
    | .otherStmt => none

/-- The relationships one parsed table contributes. -/
def relsOf (ti : TableInfo) : List Relationship :=
  ti.foreign_keys.filterMap (extractRelationship ti.name)

/-- Every foreign-key descriptor of a table list, tagged with its owning
table's name, in the order the statement loop visits them. -/
def fkPairs (ts : List TableInfo) : List (String × FKInfo) :=
  ts.flatMap fun t => t.foreign_keys.map fun f => (t.name, f)

lemma foldl_parseStmtStep_eq (stmts : List Stmt) (s : ParseState) :
    stmts.foldl parseStmtStep s =
      { tables := s.tables ++ parsedTables stmts
        relationships := s.relationships ++ (parsedTables stmts).flatMap relsOf } := by
  induction stmts generalizing s with
  | nil => simp [parsedTables]
  | cons st rest ih =>
    cases st with
    | create c =>
      cases h : parseCreateTable c with
      | some ti =>
        simp only [List.foldl_cons, parseStmtStep, h, ih, parsedTables,
          List.filterMap_cons, relsOf, List.flatMap_cons]
        simp [List.append_assoc, parsedTables, relsOf]
      | none =>
        simp only [List.foldl_cons, parseStmtStep, h, ih, parsedTables,
          List.filterMap_cons]
    | otherStmt =>
      simp only [List.foldl_cons, parseStmtStep, ih, parsedTables,
        List.filterMap_cons]

lemma assembleSchema_eq (d : String) (stmts : List Stmt) :
    assembleSchema d stmts =
      { tables := parsedTables stmts
        relationships := (parsedTables stmts).flatMap relsOf
        database_type := some d } := by
  simp [assembleSchema, foldl_parseStmtStep_eq]

lemma flatMap_relsOf_eq (ts : List TableInfo) :
    ts.flatMap relsOf = (fkPairs ts).filterMap fun p => extractRelationship p.1 p.2 := by
  induction ts with
  | nil => simp [fkPairs]
  | cons t rest ih =>
    simp [fkPairs, relsOf, List.filterMap_append, List.filterMap_map, ih]
    rfl

lemma extractRelationship_isSome (n : String) (f : FKInfo) :
    (extractRelationship n f).isSome = pyTruthyStrOpt f.referenced_table := by
  unfold extractRelationship
  by_cases h : pyTruthyStrOpt f.referenced_table = true <;> simp [h]

/-! ## Column invariant helpers -/

/-- The invariant claimed for parsed columns: primary keys are not
nullable. -/
def colInv (c : ColumnInfo) : Prop := c.is_primary_key = true → c.is_nullable = false

lemma foldl_applyConstraint_pk_mono (l : List ConstraintE) (s : CDState)
    (h : s.is_primary_key = true) :
    (l.foldl applyConstraint s).is_primary_key = true := by
  induction l generalizing s with
  | nil => exact h
  | cons c rest ih =>
    refine ih _ ?_
    cases c with
    | notNull => simpa [applyConstraint] using h
    | primaryKeyC => simp [applyConstraint]
    | defaultC v => cases v <;> simpa [applyConstraint] using h
    | otherC => simpa [applyConstraint] using h

lemma foldl_applyConstraint_inv (l : List ConstraintE) (s : CDState)
    (h : s.is_primary_key = true → s.is_nullable = false) :
    (l.foldl applyConstraint s).is_primary_key = true →
      (l.foldl applyConstraint s).is_nullable = false := by
  induction l generalizing s with
  | nil => exact h
  | cons c rest ih =>
    refine ih _ ?_
    cases c with
    | notNull => intro _; simp [applyConstraint]
    | primaryKeyC => intro _; simp [applyConstraint]
    | defaultC v => cases v <;> simpa [applyConstraint] using h
    | otherC => simpa [applyConstraint] using h

lemma foldl_applyConstraint_pk_mem (l : List ConstraintE) (s : CDState)
    (h : ConstraintE.primaryKeyC ∈ l) :
    (l.foldl applyConstraint s).is_primary_key = true := by
  induction l generalizing s with
  | nil => cases h
  | cons c rest ih =>
    rcases List.mem_cons.mp h with h1 | h2
    · rw [← h1]
      exact foldl_applyConstraint_pk_mono rest _ (by simp [applyConstraint])
    · exact ih _ h2

lemma parseColumnDef_pk_nullable (cd : ColumnDefE) (ci : ColumnInfo)
    (h : parseColumnDef cd = some ci) :
    (ConstraintE.primaryKeyC ∈ cd.constraints → ci.is_primary_key = true) ∧
      (ci.is_primary_key = true → ci.is_nullable = false) := by
  unfold parseColumnDef at h
  cases hid : cd.ident with
  | none => rw [hid] at h; cases h
  | some nm =>
    rw [hid] at h
    simp only [Option.some.injEq] at h
    subst h
    constructor
    · intro hm
      exact foldl_applyConstraint_pk_mem _ _ hm
    · intro hpk
      exact foldl_applyConstraint_inv _ _ (by intro hc; cases hc) hpk

lemma parseCreateStep_columns_inv (s : PCTState) (e : TableExpr)
    (h : ∀ c ∈ s.columns, colInv c) :
    ∀ c ∈ (parseCreateStep s e).columns, colInv c := by
  cases e with
  | columnDef cd =>
    cases hp : parseColumnDef cd with
    | none => simpa [parseCreateStep, hp] using h
    | some ci =>
      simp only [parseCreateStep, hp]
      intro c hc
      rcases List.mem_append.mp hc with h1 | h2
      · exact h c h1
      · rw [List.mem_singleton.mp h2]
        exact (parseColumnDef_pk_nullable cd ci hp).2
  | primaryKeyE cols => simpa [parseCreateStep] using h
  | foreignKeyE fk =>
    cases hp : parseForeignKey fk with
    | none => simpa [parseCreateStep, hp] using h
    | some fki =>
      simp only [parseCreateStep, hp]
      intro c hc
      rcases List.mem_map.mp hc with ⟨c0, hc0, hceq⟩
      by_cases hm : fki.columns.contains c0.name
      · rw [← hceq]
        simp only [hm, if_true]
        intro hpk
        exact h c0 hc0 hpk
      · rw [← hceq]
        simp only [hm, if_false, Bool.false_eq_true]
        exact h c0 hc0
  | otherTE => simpa [parseCreateStep] using h

lemma foldl_parseCreateStep_inv (es : List TableExpr) (s : PCTState)
    (h : ∀ c ∈ s.columns, colInv c) :
    ∀ c ∈ (es.foldl parseCreateStep s).columns, colInv c := by
  induction es generalizing s with
  | nil => exact h
  | cons e rest ih => exact ih _ (parseCreateStep_columns_inv s e h)

lemma parseCreateTable_inv (c : CreateStmt) (ti : TableInfo)
    (h : parseCreateTable c = some ti) : ∀ col ∈ ti.columns, colInv col := by
  unfold parseCreateTable at h
  by_cases hb : pyTruthyStrOpt c.tableName = true
  · rw [if_pos hb] at h
    simp only [Option.some.injEq] at h
    subst h
    exact foldl_parseCreateStep_inv _ _ (by intro c hc; cases hc)
  · rw [if_neg hb] at h
    cases h

lemma parsedTables_mem (stmts : List Stmt) (t : TableInfo)
    (h : t ∈ parsedTables stmts) : ∃ c, parseCreateTable c = some t := by
  rcases List.mem_filterMap.mp h with ⟨st, _, heq⟩
  cases st with
  | create c => exact ⟨c, heq⟩
  | otherStmt => cases heq

/-! ## Concrete sample inputs -/

/-- One `CREATE TABLE orders` statement whose foreign key references a
table `customers` that the DDL never defines. -/
def danglingFkStmts : List Stmt :=
  [Stmt.create
    { tableName := some "orders"
      expressions :=
        [ .columnDef { ident := some "id", kind := some "INT", constraints := [.primaryKeyC] },
          .columnDef { ident := some "customer_id", kind := some "INT", constraints := [] },
          .foreignKeyE
            { expressions := [.col "customer_id"]
              reference := some { tableName := some "customers", expressions := [.col "id"] } } ] }]

/-- The scenario-2 DDL: `customers(id PK)` and
`orders(id PK, customer_id, FOREIGN KEY (customer_id) REFERENCES customers(id))`. -/
def customersOrdersStmts : List Stmt :=
  [ Stmt.create
      { tableName := some "customers"
        expressions :=
          [.columnDef { ident := some "id", kind := some "INT", constraints := [.primaryKeyC] }] },
    Stmt.create
      { tableName := some "orders"
        expressions :=
          [ .columnDef { ident := some "id", kind := some "INT", constraints := [.primaryKeyC] },
            .columnDef { ident := some "customer_id", kind := some "INT", constraints := [] },
            .foreignKeyE
              { expressions := [.col "customer_id"]
                reference := some { tableName := some "customers", expressions := [.col "id"] } } ] }]

/-! ## Claims -/

/-- C7: a column carrying a column-level `PRIMARY KEY` constraint parses
with `is_primary_key = true` and `is_nullable = false` even without an
explicit `NOT NULL`, and every column of every table produced by
`DDLParser.parse` satisfies: primary key implies not nullable. -/
theorem claim_C7_theorem :
    (∀ (cd : ColumnDefE) (ci : ColumnInfo), parseColumnDef cd = some ci →
      ConstraintE.primaryKeyC ∈ cd.constraints →
      ci.is_primary_key = true ∧ ci.is_nullable = false) ∧
    (∀ (d : String) (stmts : List Stmt) (t : TableInfo) (c : ColumnInfo),
      t ∈ (assembleSchema d stmts).tables → c ∈ t.columns →
      c.is_primary_key = true → c.is_nullable = false) := by
  constructor
  · intro cd ci h hm
    obtain ⟨h1, h2⟩ := parseColumnDef_pk_nullable cd ci h
    exact ⟨h1 hm, h2 (h1 hm)⟩
  · intro d stmts t c ht hc
    simp only [assembleSchema_eq] at ht
    obtain ⟨cs, hcs⟩ := parsedTables_mem stmts t ht
    exact parseCreateTable_inv cs t hcs c hc

/-- Witness for C7: a concrete `id integer PRIMARY KEY` column (no
`NOT NULL`) and the corresponding one-table parse. -/
theorem claim_C7_witness :
    ((ColumnInfo.mk "id" "INTEGER" true false false none none).is_primary_key = true ∧
      (ColumnInfo.mk "id" "INTEGER" true false false none none).is_nullable = false) ∧
    (ColumnInfo.mk "id" "INTEGER" true false false none none).is_nullable = false :=
  ⟨claim_C7_theorem.1
      { ident := some "id", kind := some "integer", constraints := [.primaryKeyC] }
      (ColumnInfo.mk "id" "INTEGER" true false false none none)
      (by decide) (by decide),
    claim_C7_theorem.2 "sqlite"
      [Stmt.create
        { tableName := some "t"
          expressions :=
            [.columnDef { ident := some "id", kind := some "integer", constraints := [.primaryKeyC] }] }]
      (TableInfo.mk "t" [ColumnInfo.mk "id" "INTEGER" true false false none none] ["id"] [] [])
      (ColumnInfo.mk "id" "INTEGER" true false false none none)
      (by decide) (by decide) (by decide)⟩

/-- C10: whenever a foreign-key descriptor's referenced table name is
known (truthy), `_extract_relationship` produces a relationship, and an
empty referencing-column (resp. referenced-column) list defaults the
relationship's `from_column` (resp. `to_column`) to `"id"`. -/
theorem claim_C10_theorem (tname : String) (fki : FKInfo)
    (h : pyTruthyStrOpt fki.referenced_table = true) :
    (extractRelationship tname fki).isSome = true ∧
    (fki.columns = [] →
      (extractRelationship tname fki).map Relationship.from_column = some "id") ∧
    (fki.referenced_columns = [] →
      (extractRelationship tname fki).map Relationship.to_column = some "id") := by
  refine ⟨?_, ?_, ?_⟩
  · rw [extractRelationship_isSome, h]
  · intro hc
    simp [extractRelationship, h, hc]
  · intro hc
    simp [extractRelationship, h, hc]

/-- Witness for C10: a descriptor naming `customers` with empty column
lists. -/
theorem claim_C10_witness :
    (extractRelationship "orders" ⟨[], some "customers", []⟩).isSome = true ∧
    ((FKInfo.mk [] (some "customers") []).columns = [] →
      (extractRelationship "orders" ⟨[], some "customers", []⟩).map
        Relationship.from_column = some "id") ∧
    ((FKInfo.mk [] (some "customers") []).referenced_columns = [] →
      (extractRelationship "orders" ⟨[], some "customers", []⟩).map
        Relationship.to_column = some "id") :=
  claim_C10_theorem "orders" ⟨[], some "customers", []⟩ (by decide)

/-- Counterexample to C4 as stated: a foreign key referencing a table the
DDL never defines still contributes a relationship, so the schema's
relationship list names a `to_table` absent from the table list. -/
theorem claim_C4_counterexample :
    (assembleSchema "sqlite" danglingFkStmts).relationships =
      [{ from_table := "orders", to_table := "customers", from_column := "customer_id",
         to_column := "id", type := .oneToMany, label := none }] ∧
    ((assembleSchema "sqlite" danglingFkStmts).tables.map TableInfo.name) = ["orders"] ∧
    ((assembleSchema "sqlite" danglingFkStmts).tables.map TableInfo.name).contains
        "customers" = false := by
  refine ⟨by decide, by decide, by decide⟩

/-- C4 amended: the relationships of a parsed schema are exactly one per
foreign-key descriptor with a truthy referenced-table name, derived with
no check that the referenced table is among the parsed tables (dangling
references are kept, not skipped). -/
theorem claim_C4_theorem (d : String) (stmts : List Stmt) :
    (assembleSchema d stmts).relationships =
      (fkPairs (assembleSchema d stmts).tables).filterMap
        (fun p => extractRelationship p.1 p.2) := by
  simp only [assembleSchema_eq]
  exact flatMap_relsOf_eq _

/-- Counterexample to C3 as stated: an input that parses to zero tables
returns an empty schema with no `ParsingError`, and a whole-input parse
failure aborts the batch with `ParsingError` (no per-statement
tolerance). -/
theorem claim_C3_counterexample :
    parseDDL "sqlite" (Except.ok [Stmt.otherStmt]) =
      Except.ok { tables := [], relationships := [], database_type := some "sqlite" } ∧
    parseDDL "sqlite" (Except.error "boom") =
      Except.error (MCPErr.parsingError "Failed to parse DDL: boom") := by
  exact ⟨by decide, by decide⟩

/-- C3 amended: `DDLParser.parse` raises `ParsingError` exactly when the
underlying whole-input sqlglot parse raises (so a failure in any statement
aborts the whole batch and no warnings are collected), and any
successfully parsed statement list — even one yielding zero tables — is
assembled into a schema without error. -/
theorem claim_C3_theorem (dialect : String) (r : Except String (List Stmt)) :
    ((∃ msg, parseDDL dialect r = Except.error (MCPErr.parsingError msg)) ↔
      (∃ e, r = Except.error e)) ∧
    (∀ stmts, r = Except.ok stmts →
      parseDDL dialect r = Except.ok (assembleSchema (mapDialect dialect) stmts)) := by
  constructor
  · constructor
    · rintro ⟨msg, hm⟩
      cases r with
      | error e => exact ⟨e, rfl⟩
      | ok stmts => simp [parseDDL] at hm
    · rintro ⟨e, he⟩
      subst he
      exact ⟨"Failed to parse DDL: " ++ e, rfl⟩
  · rintro stmts rfl
    rfl

/-- Witness for C3 amended at a concrete successfully parsed input. -/
theorem claim_C3_witness :
    parseDDL "sqlite" (Except.ok [Stmt.otherStmt]) =
      Except.ok (assembleSchema (mapDialect "sqlite") [Stmt.otherStmt]) :=
  ( claim_C3_theorem "sqlite" (Except.ok [Stmt.otherStmt])).2 [Stmt.otherStmt] rfl

/-- C6: when the parsed statements carry exactly one foreign-key clause
`FOREIGN KEY (a) REFERENCES other(b)` (owned by table `tname`) and
`other` is also defined in the same DDL, parsing yields exactly one
relationship: one-to-many, from `tname.a` to `other.b`. -/
theorem claim_C6_theorem (d : String) (stmts : List Stmt) (tname a other b : String)
    (h1 : fkPairs (parsedTables stmts) = [(tname, ⟨[a], some other, [b]⟩)])
    (h2 : other ≠ "")
    (_h3 : other ∈ (parsedTables stmts).map TableInfo.name) :
    (assembleSchema d stmts).relationships =
      [{ from_table := tname, to_table := other, from_column := a,
         to_column := b, type := .oneToMany, label := none }] := by
  have htr : pyTruthyStrOpt (some other) = true := by
    simp [pyTruthyStrOpt, h2]
  simp only [assembleSchema_eq]
  rw [flatMap_relsOf_eq, h1]
  simp [extractRelationship, htr]

/-- Witness for C6: the scenario-2 DDL (`customers`, `orders` with one
foreign key). -/
theorem claim_C6_witness :
    (assembleSchema "sqlite" customersOrdersStmts).relationships =
      [{ from_table := "orders", to_table := "customers", from_column := "customer_id",
         to_column := "id", type := .oneToMany, label := none }] :=
  claim_C6_theorem "sqlite" customersOrdersStmts "orders" "customer_id" "customers" "id"
    (by decide) (by decide) (by decide)

/-- Counterexample to C1 as stated: planning over a zero-table schema
does not raise — `suggest_queries_for_schema` returns a one-element plan
list holding the placeholder query `SELECT 1;`. -/
theorem claim_C1_counterexample :
    suggestQueriesForSchema { tables := [], relationships := [] } none
        { business_domain := none, key_entities := [] } {} "" =
      [{ query := "SELECT 1;", description := "Fallback query", intent := .overview,
         visualization_type := "table", confidence := (0.1 : ℚ),
         explanation := "Could not generate query", tables_used := [],
         expected_columns := [], result_key := none, metadata := none }] := by
  rfl

/-- C1 amended: no `EmptySchemaError` exists; with zero tables the
LLM-path planner returns a single placeholder fallback plan
(`SELECT 1;`, confidence 0.1), the simplified agent's fallback emits
`SELECT 1 as test;`, and the rule-based generator returns an empty
suggestion list. -/
theorem claim_C1_theorem :
    (∀ (vi : Option (List String)) (a : Analysis) (r : SqlGenResult) (e : String)
        (sd : PlainSchema), sd.tables = [] →
        suggestQueriesForSchema sd vi a r e =
          [{ query := "SELECT 1;", description := "Fallback query", intent := .overview,
             visualization_type := "table", confidence := (0.1 : ℚ),
             explanation := "Could not generate query", tables_used := [],
             expected_columns := [], result_key := none, metadata := none }]) ∧
    llmFallbackQuery [] = "SELECT 1 as test;" ∧
    (∀ (sch : DatabaseSchema) (vi : Option (List String)), sch.tables = [] →
        generateSuggestions sch vi = []) := by
  refine ⟨?_, rfl, ?_⟩
  · intro vi a r e sd h
    obtain ⟨ts, rels⟩ := sd
    simp only at h
    subst h
    rfl
  · intro sch vi h
    have hfind : ∀ nm, findTable sch nm = none := by
      intro nm
      simp [findTable, h]
    have hov : generateOverviewQueries sch = [] := by
      simp [generateOverviewQueries, h]
    have hdist : generateDistributionQueries sch = [] := by
      simp [generateDistributionQueries, h]
    have hts : generateTimeSeriesQueries sch = [] := by
      simp [generateTimeSeriesQueries, h]
    have hagg : generateAggregationQueries sch = [] := by
      simp [generateAggregationQueries, h]
    have hrel : generateRelationshipQueries sch = [] := by
      simp only [generateRelationshipQueries, hfind]
      simp
    simp [generateSuggestions, hov, hdist, hts, hagg, hrel]

/-- Witness for C1 amended: an empty schema dictionary, an empty table
list, and an empty-table `DatabaseSchema` carrying a relationship. -/
theorem claim_C1_witness :
    suggestQueriesForSchema { tables := [], relationships := [] } (some ["overview"])
        { business_domain := some "retail", key_entities := ["orders"] }
        { error := some "llm down" } "no explanation" =
      [{ query := "SELECT 1;", description := "Fallback query", intent := .overview,
         visualization_type := "table", confidence := (0.1 : ℚ),
         explanation := "Could not generate query", tables_used := [],
         expected_columns := [], result_key := none, metadata := none }] ∧
    llmFallbackQuery [] = "SELECT 1 as test;" ∧
    generateSuggestions
        { tables := []
          relationships :=
            [{ from_table := "a", to_table := "b", from_column := "x",
               to_column := "y", type := .oneToMany, label := none }]
          database_type := some "sqlite" } (some ["relationships"]) = [] :=
  ⟨claim_C1_theorem.1 (some ["overview"])
      { business_domain := some "retail", key_entities := ["orders"] }
      { error := some "llm down" } "no explanation"
      { tables := [], relationships := [] } rfl,
    claim_C1_theorem.2.1,
    claim_C1_theorem.2.2
      { tables := []
        relationships :=
          [{ from_table := "a", to_table := "b", from_column := "x",
             to_column := "y", type := .oneToMany, label := none }]
        database_type := some "sqlite" } (some ["relationships"]) rfl⟩

/-- The `orders` table dictionary of the diamond schema. -/
def ordersTableDict : PlainTable :=
  { name := "orders"
    columns :=
      [{ name := "id", type := "INT", nullable := false, primary_key := true,
         foreign_key := false, unique := false, default := none }]
    primary_keys := ["id"]
    foreign_keys := []
    indexes := [] }

/-- A three-table schema dictionary with two relationships out of
`orders` (to `customers` and to `products`). -/
def diamondSchemaDict : PlainSchema :=
  { tables :=
      [ ordersTableDict,
        { name := "customers"
          columns :=
            [{ name := "id", type := "INT", nullable := false, primary_key := true,
               foreign_key := false, unique := false, default := none }]
          primary_keys := ["id"], foreign_keys := [], indexes := [] },
        { name := "products"
          columns :=
            [{ name := "id", type := "INT", nullable := false, primary_key := true,
               foreign_key := false, unique := false, default := none }]
          primary_keys := ["id"], foreign_keys := [], indexes := [] } ]
    relationships :=
      [ { from_table := "orders", from_column := "customer_id",
          to_table := "customers", to_column := "id", relationship_type := "1:N" },
        { from_table := "orders", from_column := "product_id",
          to_table := "products", to_column := "id", relationship_type := "1:N" } ] }

/-- Counterexample to C5 as stated: on a schema with two relationships
(both referencing tables not yet joined) master-query mode emits a query
with zero `JOIN` clauses when the LLM call fails — not one `JOIN` per
relationship. -/
theorem claim_C5_counterexample :
    (suggestQueriesForSchema diamondSchemaDict none
        { business_domain := none, key_entities := [] }
        { error := some "connection refused" } "").map QueryPlan.query =
      ["SELECT * FROM orders LIMIT 10;"] ∧
    countSub "SELECT * FROM orders LIMIT 10;" "JOIN" = 0 ∧
    diamondSchemaDict.relationships.length = 2 := by
  refine ⟨by decide, by decide, by decide⟩

/-- C5 amended: master-query mode performs no join construction of its
own — the query text is delegated to the LLM, and whenever the LLM call
reports an error the returned master plan's query is a fallback sample of
the first table (`SELECT * FROM <first table> LIMIT 10;`, confidence
0.3), regardless of the schema's relationship list. -/
theorem claim_C5_theorem (sd : PlainSchema) (t : PlainTable) (rest : List PlainTable)
    (a : Analysis) (vi : Option (List String)) (r : SqlGenResult) (e msg : String)
    (ht : sd.tables = t :: rest) (hr : r.error = some msg) :
    (generateMasterQuery sd a vi r e).query =
      "SELECT * FROM " ++ t.name ++ " LIMIT 10;" ∧
    (generateMasterQuery sd a vi r e).confidence = (0.3 : ℚ) := by
  obtain ⟨ts, rels⟩ := sd
  simp only at ht
  subst ht
  have he : r.error.isSome = true := by
    rw [hr]
    rfl
  constructor <;>
    simp [generateMasterQuery, generateQueryFromIntent, he, createFallbackQuery]

/-- Witness for C5 amended: the diamond schema with a failing LLM call. -/
theorem claim_C5_witness :
    (generateMasterQuery diamondSchemaDict { business_domain := none, key_entities := [] }
        (some ["overview"]) { error := some "timeout" } "x").query =
      "SELECT * FROM " ++ ordersTableDict.name ++ " LIMIT 10;" ∧
    (generateMasterQuery diamondSchemaDict { business_domain := none, key_entities := [] }
        (some ["overview"]) { error := some "timeout" } "x").confidence = (0.3 : ℚ) :=
  claim_C5_theorem diamondSchemaDict ordersTableDict
    (diamondSchemaDict.tables.drop 1)
    { business_domain := none, key_entities := [] } (some ["overview"])
    { error := some "timeout" } "x" "timeout" rfl rfl

/-- Counterexample to C2 as stated: the safety pre-check on
`"DROP DATABASE prod;"` raises `SecurityError`, not `ValidationError`. -/
theorem claim_C2_counterexample :
    validate_ddl_safety "DROP DATABASE prod;" =
      Except.error (MCPErr.securityError "DDL contains potentially dangerous operations") ∧
    isValidationError (validate_ddl_safety "DROP DATABASE prod;") = false := by
  exact ⟨by decide, by decide⟩

/-- C2 amended: for any DDL within the size cap that matches a dangerous
pattern, the request pipeline stops at the safety pre-check with
`SecurityError` (a sibling of `ValidationError`, not a subclass), before
any parsing: the parse outcome `sg` never influences the result. -/
theorem claim_C2_theorem (ddl dialect : String) (sg : Except String (List Stmt))
    (hlen : ddl.length ≤ 100000) (hd : containsDangerous ddl = true) :
    ddlPipeline ddl dialect sg =
      Except.error (MCPErr.securityError "DDL contains potentially dangerous operations") := by
  have h2 : ¬ (ddl.length > 100000) := by omega
  simp [ddlPipeline, validate_input_size, validate_ddl_safety, h2, hd,
    Bind.bind, Except.bind]

/-- Witness for C2 amended: the concrete pipeline run on
`"DROP DATABASE prod;"` with an arbitrary fixed parse outcome. -/
theorem claim_C2_witness :
    ddlPipeline "DROP DATABASE prod;" "sqlite" (Except.ok []) =
      Except.error (MCPErr.securityError "DDL contains potentially dangerous operations") :=
  claim_C2_theorem "DROP DATABASE prod;" "sqlite" (Except.ok []) (by decide) (by decide)

/-- The `users` table of the two-table overview schema. -/
def usersTable : TableInfo :=
  { name := "users"
    columns :=
      [ { name := "id", data_type := "INTEGER", is_primary_key := true, is_nullable := false },
        { name := "name", data_type := "VARCHAR(50)" } ]
    primary_keys := ["id"] }

/-- The `posts` table of the two-table overview schema. -/
def postsTable : TableInfo :=
  { name := "posts"
    columns :=
      [{ name := "id", data_type := "INTEGER", is_primary_key := true, is_nullable := false }]
    primary_keys := ["id"] }

/-- A concrete two-table schema for the overview-intent scenario. -/
def twoTableSchema : DatabaseSchema :=
  { tables := [usersTable, postsTable]
    relationships := []
    database_type := some "sqlite" }

/-- Counterexample to C8 as stated: overview planning on a two-table
schema does yield 4 plans, but a rule-based plan's serialized mapping has
no `confidence` key at all — so no rule-based plan carries confidence
1.0. -/
theorem claim_C8_counterexample :
    (generateSuggestions twoTableSchema (some ["overview"])).length = 4 ∧
    (generateSuggestions twoTableSchema (some ["overview"])).map QuerySuggestion.query =
      [ "SELECT * FROM \"users\" LIMIT 100",
        "SELECT COUNT(*) as row_count FROM \"users\"",
        "SELECT * FROM \"posts\" LIMIT 100",
        "SELECT COUNT(*) as row_count FROM \"posts\"" ] ∧
    querySuggestionKeys.contains "confidence" = false := by
  refine ⟨by decide, by decide, by decide⟩

/-- C8 amended: rule-based planning with intents `["overview"]` on a
two-table schema yields exactly 4 suggestions — per table a
`SELECT * ... LIMIT 100` sample and a `COUNT(*)` — and rule-based
`QuerySuggestion`s carry no confidence score (the model has no such
field; only LLM-generated plans are scored 0.8/0.3). -/
theorem claim_C8_theorem (sch : DatabaseSchema) (t1 t2 : TableInfo)
    (h : sch.tables = [t1, t2]) :
    (generateSuggestions sch (some ["overview"])).map QuerySuggestion.query =
      [ "SELECT * FROM " ++ quoteIdentifier (sqlgenDialect sch) t1.name ++ " LIMIT 100",
        "SELECT COUNT(*) as row_count FROM " ++ quoteIdentifier (sqlgenDialect sch) t1.name,
        "SELECT * FROM " ++ quoteIdentifier (sqlgenDialect sch) t2.name ++ " LIMIT 100",
        "SELECT COUNT(*) as row_count FROM " ++ quoteIdentifier (sqlgenDialect sch) t2.name ] ∧
    (generateSuggestions sch (some ["overview"])).length = 4 ∧
    querySuggestionKeys.contains "confidence" = false := by
  have hg : generateSuggestions sch (some ["overview"]) = generateOverviewQueries sch := by
    simp [generateSuggestions, pyTruthyListOpt]
  rw [hg]
  refine ⟨?_, ?_, by decide⟩ <;> simp [generateOverviewQueries, h]

/-- Witness for C8 amended: the concrete two-table schema. -/
theorem claim_C8_witness :
    (generateSuggestions twoTableSchema (some ["overview"])).map QuerySuggestion.query =
      [ "SELECT * FROM " ++ quoteIdentifier (sqlgenDialect twoTableSchema) usersTable.name ++
          " LIMIT 100",
        "SELECT COUNT(*) as row_count FROM " ++
          quoteIdentifier (sqlgenDialect twoTableSchema) usersTable.name,
        "SELECT * FROM " ++ quoteIdentifier (sqlgenDialect twoTableSchema) postsTable.name ++
          " LIMIT 100",
        "SELECT COUNT(*) as row_count FROM " ++
          quoteIdentifier (sqlgenDialect twoTableSchema) postsTable.name ] ∧
    (generateSuggestions twoTableSchema (some ["overview"])).length = 4 ∧
    querySuggestionKeys.contains "confidence" = false :=
  claim_C8_theorem twoTableSchema usersTable postsTable rfl

/-- Round-trip of composed maps is the identity when it holds pointwise. -/
lemma map_roundtrip {α β : Type} (f : α → β) (g : β → α) (l : List α)
    (h : ∀ x ∈ l, g (f x) = x) : (l.map f).map g = l := by
  induction l with
  | nil => rfl
  | cons x l ih =>
    simp only [List.map_cons, List.cons.injEq]
    exact ⟨h x (List.mem_cons_self x l), ih (fun y hy => h y (List.mem_cons_of_mem x hy))⟩

lemma fromPlainColumn_columnToDict (c : ColumnInfo) (h : c.references = none) :
    fromPlainColumn (columnToDict c) = c := by
  obtain ⟨nm, dt, pk, fk, nl, dv, rf⟩ := c
  simp only at h
  subst h
  rfl

lemma fromPlainTable_tableToDict (t : TableInfo)
    (h : ∀ c ∈ t.columns, c.references = none) :
    fromPlainTable (tableToDict t) = t := by
  obtain ⟨nm, cols, pks, fks, idx⟩ := t
  simp only at h
  have hcols : (cols.map columnToDict).map fromPlainColumn = cols :=
    map_roundtrip _ _ _ (fun c hc => fromPlainColumn_columnToDict c (h c hc))
  simp [fromPlainTable, tableToDict, hcols]

lemma parseRelTypeValue_value (ty : RelationType) :
    parseRelTypeValue ty.value = ty := by
  cases ty <;> rfl

lemma fromPlainRel_relToDict (r : Relationship) (h : r.label = none) :
    fromPlainRel (relToDict r) = r := by
  obtain ⟨ft, tt, fc, tc, ty, lb⟩ := r
  simp only at h
  subst h
  simp [fromPlainRel, relToDict, parseRelTypeValue_value]

/-- A schema whose optional fields are at their data-model defaults. -/
def defaultFieldsSchema : DatabaseSchema :=
  { tables :=
      [{ name := "users"
         columns :=
           [ { name := "id", data_type := "INTEGER", is_primary_key := true,
               is_nullable := false },
             { name := "city", data_type := "VARCHAR(40)", default_value := some "x" } ]
         primary_keys := ["id"]
         foreign_keys := [⟨["city"], some "cities", ["id"]⟩]
         indexes := [[("name", "idx1")]] }]
    relationships :=
      [{ from_table := "users", to_table := "cities", from_column := "city",
         to_column := "id", type := .oneToMany, label := none }]
    database_type := some "generic" }

/-- A schema exercising the three fields `_schema_to_dict` drops: a
`references` pointer, a relationship label, and a non-default dialect. -/
def lossySchema : DatabaseSchema :=
  { tables :=
      [{ name := "pets"
         columns :=
           [{ name := "owner_id", data_type := "INT", is_foreign_key := true,
              references := some { table := "users", column := some "id" } }]
         primary_keys := []
         foreign_keys := []
         indexes := [] }]
    relationships :=
      [{ from_table := "pets", to_table := "users", from_column := "owner_id",
         to_column := "id", type := .oneToMany, label := some "owned by" }]
    database_type := some "postgres" }

/-- Counterexample to C9 as stated: the round trip is not lossless —
`_schema_to_dict` drops the dialect tag (and `references`/`label`), so a
schema with dialect `postgres` comes back with the default `generic`. -/
theorem claim_C9_counterexample :
    ¬ (fromPlain (schemaToDict lossySchema) = lossySchema) ∧
    (fromPlain (schemaToDict lossySchema)).database_type = some "generic" ∧
    lossySchema.database_type = some "postgres" := by
  refine ⟨by decide, by decide, by decide⟩

/-- C9 amended: the round trip restores every serialized field —
table names, columns (name/type/nullability/primary/foreign flags and
default), primary keys, foreign-key descriptors, indexes, and
relationships (endpoints, columns and cardinality) — and is the identity
exactly on schemas whose non-serialized fields (`Column.references`,
`Relationship.label`, `database_type`) are at their data-model
defaults. -/
theorem claim_C9_theorem (s : DatabaseSchema)
    (h1 : ∀ t ∈ s.tables, ∀ c ∈ t.columns, c.references = none)
    (h2 : ∀ r ∈ s.relationships, r.label = none)
    (h3 : s.database_type = some "generic") :
    fromPlain (schemaToDict s) = s := by
  obtain ⟨ts, rels, dbt⟩ := s
  simp only at h1 h2 h3
  subst h3
  have htab : (ts.map tableToDict).map fromPlainTable = ts :=
    map_roundtrip _ _ _ (fun t ht => fromPlainTable_tableToDict t (h1 t ht))
  have hrel : (rels.map relToDict).map fromPlainRel = rels :=
    map_roundtrip _ _ _ (fun r hr => fromPlainRel_relToDict r (h2 r hr))
  simp [fromPlain, schemaToDict, htab, hrel]

/-- Witness for C9 amended: a concrete schema with the optional fields at
their defaults round-trips to itself. -/
theorem claim_C9_witness :
    fromPlain (schemaToDict defaultFieldsSchema) = defaultFieldsSchema :=
  claim_C9_theorem defaultFieldsSchema (by decide) (by decide) rfl

end SqlToDashboard
